import Mathlib

/-!
Verification of the Energy Metrics Engine of the Factory-X Audit App.

The engine lives in `src/core/data_parser.py` (`DataParser.compute_metrics`,
`DataParser.calculate_duty_cycle`) and is assembled into an audit record by
`render_data_to_json` in `src/app.py`; an earlier variant of the assembler,
including `find_top_variable`, is kept in `src/archive/xlsx_2_json/app.py`.

The embedding below models a pandas DataFrame as an association list of named
columns of rational values, numpy floating point arithmetic as exact rational
arithmetic, Python `round(x, n)` as round-half-to-even at `n` decimals, and
Python exceptions as an `Except` error value.  `np.std`'s square root is
replaced by a fixed computable approximation (`sqrtQ`), which is adequate here
because no claim depends on the numeric value of a standard deviation, only on
which data the statistic is computed over.
-/

/-- Python exceptions that the modelled code can raise.
`missingColumn` stands for the `ValueError("Time column ... not found")`
raised at src/core/data_parser.py line 22 (the spec's `MissingColumnError`);
`indexError` stands for the numpy `IndexError` raised by `time[-1]` on an
empty array (line 25). -/
inductive PyError
  | missingColumn (col : String)
  | indexError
deriving DecidableEq

instance exceptDecEq {ε α : Type} [DecidableEq ε] [DecidableEq α] : DecidableEq (Except ε α)
  | .error a, .error b =>
      if h : a = b then isTrue (h ▸ rfl) else isFalse (fun c => h (Except.error.inj c))
  | .error _, .ok _ => isFalse (fun c => Except.noConfusion c)
  | .ok _, .error _ => isFalse (fun c => Except.noConfusion c)
  | .ok a, .ok b =>
      if h : a = b then isTrue (h ▸ rfl) else isFalse (fun c => h (Except.ok.inj c))

/-- A pandas DataFrame: named columns, each an ordered list of numeric
samples.  pandas keeps all columns the same length; theorems that need that
rectangularity state it as an explicit hypothesis on the columns involved. -/
abbrev DataFrame := List (String × List ℚ)

/-- `df.columns` of pandas: the column names in order. -/
def dfColumns (df : DataFrame) : List String := df.map Prod.fst

/-- `df[name]` of pandas: the named column's values (first match), `[]` when
the column does not exist (pandas would raise, but every use below is guarded
by a membership test, as in the source). -/
def dfCol : DataFrame → String → List ℚ
  | [], _ => []
  | c :: df, name => if c.1 = name then c.2 else dfCol df name

/-- `len(df)` of pandas: the number of rows. -/
def dfNRows : DataFrame → ℕ
  | [] => 0
  | c :: _ => c.2.length

/-- `[v for v in vars_group if v in df.columns]` (src/core/data_parser.py
lines 28 and 75). -/
def validVars (df : DataFrame) (vars_group : List String) : List String :=
  vars_group.filter (fun v => decide (v ∈ dfColumns df))

/-- `np.mean`: arithmetic mean.  (On an empty list numpy yields NaN; the
modelled code only reaches `np.mean` on nonempty data, where this agrees.) -/
def listMean (l : List ℚ) : ℚ := l.sum / l.length

/-- `np.max` of a nonempty array. -/
def listMax : List ℚ → ℚ
  | [] => 0
  | x :: xs => xs.foldl max x

/-- `np.min` of a nonempty array. -/
def listMin : List ℚ → ℚ
  | [] => 0
  | x :: xs => xs.foldl min x

/-- Insertion step of the sort used to model `np.median`. -/
def insertSorted (x : ℚ) : List ℚ → List ℚ
  | [] => [x]
  | y :: ys => if x ≤ y then x :: y :: ys else y :: insertSorted x ys

/-- A sort of the samples (insertion sort; only the sortedness matters). -/
def sortQ (l : List ℚ) : List ℚ := l.foldr insertSorted []

/-- `np.median`: middle of the sorted values, or the mean of the two middle
values for an even count. -/
def listMedian (l : List ℚ) : ℚ :=
  let s := sortQ l
  if l.length % 2 = 1 then s.getD (l.length / 2) 0
  else (s.getD (l.length / 2 - 1) 0 + s.getD (l.length / 2) 0) / 2

/-- Fixed computable stand-in for the floating-point square root inside
`np.std` (six decimal digits of precision).  No claim below depends on the
numeric value of a standard deviation, only on the data it is computed over,
so any fixed approximation is adequate. -/
def sqrtQ (x : ℚ) : ℚ := (Nat.sqrt (x * 10 ^ 12).floor.toNat : ℚ) / 10 ^ 6

/-- `np.std`: population standard deviation (denominator `n`, not `n - 1`). -/
def listStd (l : List ℚ) : ℚ := sqrtQ (listMean (l.map (fun x => (x - listMean l) ^ 2)))

/-- `np.argmax`: the index of the first occurrence of the maximum value. -/
def argmax (l : List ℚ) : ℕ := l.findIdx (fun x => decide (x = listMax l))

/-- `np.trapz(values, time)`: trapezoidal integration of `values` against the
`time` axis, `0` for fewer than two points. -/
def trapz : List ℚ → List ℚ → ℚ
  | v0 :: v1 :: vs, t0 :: t1 :: ts => (t1 - t0) * (v0 + v1) / 2 + trapz (v1 :: vs) (t1 :: ts)
  | _, _ => 0

/-- Python `round` to an integer: round half to even (banker's rounding). -/
def roundHalfEven (x : ℚ) : ℤ :=
  if x - ⌊x⌋ < 1 / 2 then ⌊x⌋
  else if 1 / 2 < x - ⌊x⌋ then ⌊x⌋ + 1
  else if ⌊x⌋ % 2 = 0 then ⌊x⌋ else ⌊x⌋ + 1

/-- Python `round(x, 2)`. -/
def round2 (x : ℚ) : ℚ := (roundHalfEven (x * 100) : ℚ) / 100

/-- Python `round(x, 4)`. -/
def round4 (x : ℚ) : ℚ := (roundHalfEven (x * 10000) : ℚ) / 10000

/-- The values of row `i` across the listed columns (missing entries read as
`0`; pandas frames are rectangular so theorems restrict to that case). -/
def rowVals (df : DataFrame) (vars : List String) (i : ℕ) : List ℚ :=
  vars.map (fun v => (dfCol df v).getD i 0)

/-- `df[vars].sum(axis=1)` (src/core/data_parser.py line 55): the per-sample
sum across the listed columns — the group's composite series. -/
def rowSum (df : DataFrame) (vars : List String) : List ℚ :=
  (List.range (dfNRows df)).map (fun i => (rowVals df vars i).sum)

/-- `df[vars].mean(axis=1)` (src/core/data_parser.py line 79): the per-sample
mean across the listed columns. -/
def rowMean (df : DataFrame) (vars : List String) : List ℚ :=
  (List.range (dfNRows df)).map (fun i => listMean (rowVals df vars i))

/-- The per-channel statistics dict built in the loop of `compute_metrics`
(src/core/data_parser.py lines 33-52), in the source's key order. -/
def channelStats (values time : List ℚ) : List (String × ℚ) :=
  [("mean", round2 (listMean values)),
   ("median", round2 (listMedian values)),
   ("max", round2 (listMax values)),
   ("min", round2 (listMin values)),
   ("std_dev", round2 (listStd values)),
   ("range", round2 (listMax values - listMin values)),
   ("total_energy_kWh", round4 (trapz values time / 3600000)),
   ("time_of_peak", round2 (time.getD (argmax values) 0))]

/-- `DataParser.compute_metrics` (src/core/data_parser.py lines 18-67).
Line 22 raises when the time column is absent; line 25 (`time[-1] - time[0]`,
computing the unused `duration_sec`) raises `IndexError` on an empty frame;
line 31 returns `({}, {})` when no configured channel is present; otherwise
per-channel dicts and the group summary over the composite series. -/
def compute_metrics (df : DataFrame) (vars_group : List String)
    (time_col : String := "elapsedTime") :
    Except PyError (List (String × List (String × ℚ)) × List (String × ℚ)) :=
  if time_col ∉ dfColumns df then .error (.missingColumn time_col)
  else
    let time := dfCol df time_col
    if time = [] then .error .indexError
    else
      let valid := validVars df vars_group
      if valid = [] then .ok ([], [])
      else
        let details := valid.map (fun v => (v, channelStats (dfCol df v) time))
        let combined := rowSum df valid
        let group_summary := [
          ("mean", round2 (listMean combined)),
          ("max", round2 (listMax combined)),
          ("min", round2 (listMin combined)),
          ("std_dev", round2 (listStd combined)),
          ("range", round2 (listMax combined - listMin combined)),
          ("total_energy_kWh", round4 (trapz combined time / 3600000))]
        .ok (details, group_summary)

/-- `DataParser.calculate_duty_cycle` (src/core/data_parser.py lines 69-81).
Returns `none` for the NaN that numpy produces from `0 / len(df)` with
`len(df) = 0`; every numeric result is `some`. -/
def calculate_duty_cycle (df : DataFrame) (vars_group : List String)
    (mean_power : ℚ) : Option ℚ :=
  if vars_group = [] ∨ mean_power = 0 then some 0
  else
    let valid := validVars df vars_group
    if valid = [] then some 0
    else
      let group_mean := rowMean df valid
      let active := (group_mean.filter (fun x => decide (1 / 10 * mean_power < x))).length
      if dfNRows df = 0 then none
      else some (round2 ((active : ℚ) / (dfNRows df : ℚ) * 100))

/-- Python `dict` lookup (first binding of the key). -/
def dget {α : Type} : List (String × α) → String → Option α
  | [], _ => none
  | p :: d, k => if p.1 = k then some p.2 else dget d k

/-- Lookup of one channel's statistics dict in the details mapping. -/
def dgetM (d : List (String × List (String × ℚ))) (k : String) : List (String × ℚ) :=
  (dget d k).getD []

/-- The details mapping `compute_metrics` returns (first component), `[]` when
it raises. -/
def metricsD (df : DataFrame) (vars_group : List String) (time_col : String) :
    List (String × List (String × ℚ)) :=
  match compute_metrics df vars_group time_col with
  | .ok r => r.1
  | .error _ => []

/-- The group summary `compute_metrics` returns (second component), `[]` when
it raises. -/
def summaryD (df : DataFrame) (vars_group : List String) (time_col : String) :
    List (String × ℚ) :=
  match compute_metrics df vars_group time_col with
  | .ok r => r.2
  | .error _ => []

/-- The group's total energy in kWh before the final rounding:
`np.trapz(df[valid_vars].sum(axis=1), time) / 3_600_000.0`
(src/core/data_parser.py lines 55-56). -/
def groupEnergy (df : DataFrame) (vars_group : List String) (time_col : String) : ℚ :=
  trapz (rowSum df (validVars df vars_group)) (dfCol df time_col) / 3600000

/-- A top-channel callout as built by the archived `find_top_variable`
(src/archive/xlsx_2_json/app.py lines 115-123): channel name, its group, and
the rounded value of the metric. -/
structure TopVar where
  name : String
  group : String
  value : ℚ
deriving DecidableEq

/-- One entry of `all_vars_combined` (src/archive/xlsx_2_json/app.py lines
100-112): a channel name, the group it came from, and its statistics dict. -/
structure VarRec where
  name : String
  group : String
  metrics : List (String × ℚ)
deriving DecidableEq

/-- `all_vars_combined` (src/archive/xlsx_2_json/app.py lines 100-112):
the electrical channels then the pneumatic ones, tagged with their group. -/
def allVarsCombined (elek pneu : List (String × List (String × ℚ))) : List VarRec :=
  elek.map (fun p => ⟨p.1, "Elektrisch", p.2⟩) ++ pneu.map (fun p => ⟨p.1, "Pneumatisch", p.2⟩)

/-- Python `max(l, key=lambda x: x.get(key, 0))`: keeps the first element on
ties, replaces only on a strictly greater key. -/
def pyMaxBy (l : List VarRec) (key : String) : Option VarRec :=
  l.foldl
    (fun best x =>
      match best with
      | none => some x
      | some b => if (dget b.metrics key).getD 0 < (dget x.metrics key).getD 0 then some x else some b)
    none

/-- `find_top_variable` of the archived assembler (src/archive/xlsx_2_json/
app.py lines 115-123): `None` when no channels exist, else the channel with
the highest value of the metric. -/
def find_top_variable (l : List VarRec) (key : String) : Option TopVar :=
  if l = [] then none
  else (pyMaxBy l key).map (fun t => ⟨t.name, t.group, round2 ((dget t.metrics key).getD 0)⟩)

/-- The `Overall Summary` object assembled by `render_data_to_json`
(src/app.py lines 240-245), with its `Top Variables` sub-dict. -/
structure OverallSummary where
  totalEnergy : ℚ
  meanPower : ℚ
  energyRate : ℚ
  topVariables : List (String × Option TopVar)
deriving DecidableEq

/-- The overall-summary computation of `render_data_to_json` (src/app.py
lines 191-245): metrics for the two groups, then `Total Energy (kWh)`,
`Mean Power (W)`, `Energy Rate (kWh/hour)` and the `Top Variables` value,
which line 244 sets to the literal empty dict. -/
def render_overall (df : DataFrame) (vars_elek vars_pneu : List String) :
    Except PyError OverallSummary := do
  let elek ← compute_metrics df vars_elek "elapsedTime"
  let pneu ← compute_metrics df vars_pneu "elapsedTime"
  let elek_total := elek.2
  let pneu_total := pneu.2
  let time := dfCol df "elapsedTime"
  let duration_sec := time.getLastD 0 - time.headD 0
  let total_energy := round4 ((dget elek_total "total_energy_kWh").getD 0
    + (dget pneu_total "total_energy_kWh").getD 0)
  let mean_power := round2 (((dget elek_total "mean").getD 0
    + (dget pneu_total "mean").getD 0) / 2)
  let energy_rate := if 0 < duration_sec then round4 (total_energy / (duration_sec / 3600)) else 0
  pure ⟨total_energy, mean_power, energy_rate, []⟩

/-- The `Top Variables` mapping of the assembled overall summary, `none` when
the assembly raised. -/
def topVariablesOf (r : Except PyError OverallSummary) : Option (List (String × Option TopVar)) :=
  match r with
  | .ok s => some s.topVariables
  | .error _ => none

/-- The duty-cycle call of the assembler (src/app.py lines 209 and 212):
`calculate_duty_cycle(df, vars_group, group_total.get("mean", 0))` — the mean
power handed over is the group summary's mean of the per-sample sum. -/
def app_duty_cycle (df : DataFrame) (vars_group : List String) :
    Except PyError (Option ℚ) := do
  let r ← compute_metrics df vars_group "elapsedTime"
  pure (calculate_duty_cycle df vars_group ((dget r.2 "mean").getD 0))

/-! ### Concrete inputs used by witnesses and counterexamples -/

/-- The duty-cycle scenario of the spec and of `tests/test_core.py`:
a single channel `[0, 100, 100, 0, 100]`. -/
def dutyDF : DataFrame := [("Power1", [0, 100, 100, 0, 100])]

/-- A three-row series with two channels (integer-valued so every rounding is
exact). -/
def dfScenario : DataFrame :=
  [("elapsedTime", [0, 10, 20]), ("Power1", [100, 200, 300]), ("Power2", [50, 50, 50])]

/-- The peak-time scenario of the spec: values `[10, 50, 50, 20]` at times
`[0, 1, 2, 3]`. -/
def dfPeak : DataFrame := [("elapsedTime", [0, 1, 2, 3]), ("P", [10, 50, 50, 20])]

/-- An empty table (zero rows) that still declares a time column and a
channel column. -/
def dfEmpty : DataFrame := [("elapsedTime", []), ("P", [])]

/-- An empty table carrying only the time column. -/
def dfEmptyTime : DataFrame := [("elapsedTime", [])]

/-- An empty channel column without any time axis (duty cycle ignores time). -/
def dfEmptyChan : DataFrame := [("Power1", [])]

/-- A one-sample table. -/
def dfOneRow : DataFrame := [("elapsedTime", [7]), ("P", [5])]

/-- A two-row table whose time column is present but whose group will not
match any column. -/
def dfTwoRows : DataFrame := [("elapsedTime", [0, 1])]

/-- Two constant channels of value 5 over two samples. -/
def dfConst2 : DataFrame := [("elapsedTime", [0, 1]), ("a", [5, 5]), ("b", [5, 5])]

/-- Ten constant channels of value 5 over two samples. -/
def dfConst10 : DataFrame :=
  [("elapsedTime", [0, 1]),
   ("c1", [5, 5]), ("c2", [5, 5]), ("c3", [5, 5]), ("c4", [5, 5]), ("c5", [5, 5]),
   ("c6", [5, 5]), ("c7", [5, 5]), ("c8", [5, 5]), ("c9", [5, 5]), ("c10", [5, 5])]

/-- The channel lists of the ten-channel table. -/
def varsConst10 : List String :=
  ["c1", "c2", "c3", "c4", "c5", "c6", "c7", "c8", "c9", "c10"]

/-! ### Helper lemmas -/

lemma roundHalfEven_floor_le (x : ℚ) : ⌊x⌋ ≤ roundHalfEven x := by
  unfold roundHalfEven
  split
  · omega
  · split
    · omega
    · split <;> omega

lemma roundHalfEven_le_ceil (x : ℚ) : roundHalfEven x ≤ ⌈x⌉ := by
  have hceil : (⌊x⌋ : ℚ) < x → ⌊x⌋ + 1 ≤ ⌈x⌉ := by
    intro hx
    have := Int.lt_ceil.mpr hx
    omega
  unfold roundHalfEven
  split
  · exact Int.floor_le_ceil x
  · next h1 =>
    split
    · next h2 => exact hceil (by linarith)
    · next h2 =>
      have hx : (⌊x⌋ : ℚ) < x := by
        have : 1 / 2 ≤ x - ⌊x⌋ := le_of_not_lt h1
        linarith
      split
      · exact Int.floor_le_ceil x
      · exact hceil hx

lemma round2_bounds (x : ℚ) (h0 : 0 ≤ x) (h1 : x ≤ 100) :
    0 ≤ round2 x ∧ round2 x ≤ 100 := by
  have hf : (0 : ℤ) ≤ ⌊x * 100⌋ := Int.floor_nonneg.mpr (by linarith)
  have hc : ⌈x * 100⌉ ≤ (10000 : ℤ) := Int.ceil_le.mpr (by push_cast; linarith)
  have hlo : (0 : ℤ) ≤ roundHalfEven (x * 100) := le_trans hf (roundHalfEven_floor_le (x * 100))
  have hhi : roundHalfEven (x * 100) ≤ 10000 := le_trans (roundHalfEven_le_ceil (x * 100)) hc
  constructor
  · exact div_nonneg (by exact_mod_cast hlo) (by norm_num)
  · rw [round2, div_le_iff₀ (by norm_num : (0:ℚ) < 100)]
    calc (roundHalfEven (x * 100) : ℚ) ≤ 10000 := by exact_mod_cast hhi
    _ = 100 * 100 := by norm_num

/-! ### C3: absent time column -/

/-- C3: whenever the designated time column is absent from the table,
`compute_metrics` fails with the missing-column error (the spec's
`MissingColumnError`, a `ValueError` in the source), whatever the channel
configuration, and yields no partial details or summary. -/
theorem missing_time_column_error (df : DataFrame) (vars_group : List String)
    (time_col : String) (h : time_col ∉ dfColumns df) :
    compute_metrics df vars_group time_col = .error (.missingColumn time_col) ∧
    metricsD df vars_group time_col = [] ∧
    summaryD df vars_group time_col = [] := by
  refine ⟨?_, ?_, ?_⟩ <;> simp [compute_metrics, metricsD, summaryD, h]

/-- Witness for C3: a table without `elapsedTime` makes `compute_metrics`
fail with the missing-column error. -/
theorem missing_time_column_error_witness :
    compute_metrics dfEmptyChan ["Power1"] "elapsedTime"
      = .error (.missingColumn "elapsedTime") ∧
    metricsD dfEmptyChan ["Power1"] "elapsedTime" = [] ∧
    summaryD dfEmptyChan ["Power1"] "elapsedTime" = [] :=
  missing_time_column_error dfEmptyChan ["Power1"] "elapsedTime" (by decide)

/-! ### C6: group matching no column -/

/-- C6 (amended): when the time column is present with at least one sample and
none of the group's configured channel names matches a column,
`compute_metrics` returns empty details and an empty summary without raising,
and `calculate_duty_cycle` returns 0 for such a group whatever mean power is
supplied. -/
theorem unmatched_group_empty_result (df : DataFrame) (vars_group : List String)
    (time_col : String) (ht : time_col ∈ dfColumns df) (h0 : dfCol df time_col ≠ [])
    (hv : validVars df vars_group = []) :
    compute_metrics df vars_group time_col = .ok ([], []) ∧
    ∀ mean_power : ℚ, calculate_duty_cycle df vars_group mean_power = some 0 := by
  constructor
  · simp [compute_metrics, ht, h0, hv]
  · intro mp
    by_cases h : vars_group = [] ∨ mp = 0
    · simp [calculate_duty_cycle, h]
    · simp [calculate_duty_cycle, h, hv]

/-- Witness for C6: a two-row table and a group whose only channel name
matches nothing. -/
theorem unmatched_group_empty_result_witness :
    compute_metrics dfTwoRows ["X"] "elapsedTime" = .ok ([], []) ∧
    calculate_duty_cycle dfTwoRows ["X"] 5 = some 0 := by
  have h := unmatched_group_empty_result dfTwoRows ["X"] "elapsedTime"
    (by decide) (by decide) (by decide)
  exact ⟨h.1, h.2 5⟩

/-- Counterexample for C6 as stated: on a zero-row table whose time column is
present, a group matching no column does not get the `({}, {})` result — line
25 (`time[-1]`) raises `IndexError` before the valid-channel check runs. -/
theorem unmatched_group_empty_table_raises :
    compute_metrics dfEmptyTime ["X"] "elapsedTime" = .error .indexError ∧
    validVars dfEmptyTime ["X"] = [] ∧
    "elapsedTime" ∈ dfColumns dfEmptyTime := by
  refine ⟨?_, by decide, by decide⟩
  simp [compute_metrics, dfEmptyTime, dfColumns, dfCol]

/-! ### C5: the duty-cycle formula -/

/-- C5: on a table with at least one row, `calculate_duty_cycle` returns 0
when the channel list is empty, the supplied group mean is 0 or no channel
matches, and otherwise the percentage of samples whose per-sample mean across
the valid channels strictly exceeds a tenth of the supplied group mean,
rounded to two decimals. -/
theorem duty_cycle_formula (df : DataFrame) (vars_group : List String) (mean_power : ℚ)
    (hn : dfNRows df ≠ 0) :
    calculate_duty_cycle df vars_group mean_power = some (
      if vars_group = [] ∨ mean_power = 0 ∨ validVars df vars_group = [] then 0
      else round2 ((((List.range (dfNRows df)).filter (fun i =>
          decide (mean_power / 10 < listMean (rowVals df (validVars df vars_group) i)))).length : ℚ)
        / (dfNRows df : ℚ) * 100)) := by
  by_cases h1 : vars_group = [] ∨ mean_power = 0
  · rcases h1 with h | h <;> simp [calculate_duty_cycle, h]
  · by_cases h2 : validVars df vars_group = []
    · simp [calculate_duty_cycle, h1, h2]
    · have e : (1 : ℚ) / 10 * mean_power = mean_power / 10 := by ring
      simp only [calculate_duty_cycle, rowMean, if_neg h1, if_neg h2, if_neg hn, e,
        List.filter_map, List.length_map, Function.comp]
      simp [h1, h2]
      rfl

/-- Witness for C5: the spec's duty-cycle scenario — single channel
`[0, 100, 100, 0, 100]` with supplied mean 60 gives 60.0. -/
theorem duty_cycle_formula_witness :
    calculate_duty_cycle dutyDF ["Power1"] 60 = some 60 := by
  have h := duty_cycle_formula dutyDF ["Power1"] 60 (by decide)
  rw [h]
  norm_num [dutyDF, validVars, dfColumns, dfNRows, rowVals, dfCol, listMean,
    List.range_succ, round2, roundHalfEven]

/-! ### C9: duty-cycle bounds -/

/-- C9 (amended): every numeric value `calculate_duty_cycle` returns lies
between 0 and 100.  (On a zero-row table with a matching channel and nonzero
mean the code divides 0 by 0 and produces NaN instead of a numeric value; see
the counterexample.) -/
theorem duty_cycle_bounds_when_defined (df : DataFrame) (vars_group : List String)
    (mean_power x : ℚ) (h : calculate_duty_cycle df vars_group mean_power = some x) :
    0 ≤ x ∧ x ≤ 100 := by
  simp only [calculate_duty_cycle] at h
  split at h
  · obtain rfl : (0 : ℚ) = x := Option.some.inj h
    norm_num
  · split at h
    · obtain rfl : (0 : ℚ) = x := Option.some.inj h
      norm_num
    · split at h
      · exact absurd h (by simp)
      · next hn =>
        obtain rfl := Option.some.inj h
        have hcount : ((rowMean df (validVars df vars_group)).filter
            (fun v => decide (1 / 10 * mean_power < v))).length ≤ dfNRows df := by
          calc ((rowMean df (validVars df vars_group)).filter
              (fun v => decide (1 / 10 * mean_power < v))).length
              ≤ (rowMean df (validVars df vars_group)).length := List.length_filter_le _ _
            _ = dfNRows df := by simp [rowMean]
        have hpos : (0 : ℚ) < (dfNRows df : ℚ) := by
          exact_mod_cast Nat.pos_of_ne_zero hn
        apply round2_bounds
        · positivity
        · have hdiv : (((rowMean df (validVars df vars_group)).filter
              (fun v => decide (1 / 10 * mean_power < v))).length : ℚ) / (dfNRows df : ℚ) ≤ 1 := by
            rw [div_le_one hpos]
            exact_mod_cast hcount
          nlinarith

/-- Witness for C9: a returned duty-cycle value (0, from an empty channel
list) lies within the bounds. -/
theorem duty_cycle_bounds_witness : 0 ≤ (0 : ℚ) ∧ (0 : ℚ) ≤ 100 :=
  duty_cycle_bounds_when_defined dfEmptyChan [] 5 0 (by simp [calculate_duty_cycle])

/-- Counterexample for C9 as stated: on a zero-row table with a matching
channel and nonzero supplied mean, `active_samples / len(df)` is `0 / 0`,
numpy yields NaN (modelled `none`), so no value satisfying the bounds is
returned. -/
theorem duty_cycle_empty_table_nan :
    calculate_duty_cycle dfEmptyChan ["Power1"] 60 = none := by
  norm_num [calculate_duty_cycle, dfEmptyChan, validVars, dfColumns, dfNRows]

/-! ### Lookup and argmax helper lemmas -/

lemma dget_map_pair {β : Type} (f : String → β) :
    ∀ (l : List String) (k : String), k ∈ l →
      dget (l.map (fun v => (v, f v))) k = some (f k) := by
  intro l
  induction l with
  | nil => intro k hk; cases hk
  | cons a l ih =>
    intro k hk
    by_cases h : a = k
    · subst h; simp [dget]
    · have hk2 : k ∈ l := by
        rcases List.mem_cons.mp hk with h1 | h1
        · exact absurd h1.symm h
        · exact h1
      simp [dget, h, ih k hk2]

lemma compute_metrics_ok (df : DataFrame) (vars_group : List String) (time_col : String)
    (ht : time_col ∈ dfColumns df) (h0 : dfCol df time_col ≠ [])
    (hv : validVars df vars_group ≠ []) :
    compute_metrics df vars_group time_col = .ok (
      (validVars df vars_group).map (fun v => (v, channelStats (dfCol df v) (dfCol df time_col))),
      [("mean", round2 (listMean (rowSum df (validVars df vars_group)))),
       ("max", round2 (listMax (rowSum df (validVars df vars_group)))),
       ("min", round2 (listMin (rowSum df (validVars df vars_group)))),
       ("std_dev", round2 (listStd (rowSum df (validVars df vars_group)))),
       ("range", round2 (listMax (rowSum df (validVars df vars_group))
         - listMin (rowSum df (validVars df vars_group)))),
       ("total_energy_kWh", round4 (trapz (rowSum df (validVars df vars_group))
         (dfCol df time_col) / 3600000))]) := by
  simp [compute_metrics, ht, h0, hv]

lemma metricsD_entry (df : DataFrame) (vars_group : List String) (time_col var : String)
    (ht : time_col ∈ dfColumns df) (h0 : dfCol df time_col ≠ [])
    (hvar : var ∈ validVars df vars_group) :
    dgetM (metricsD df vars_group time_col) var
      = channelStats (dfCol df var) (dfCol df time_col) := by
  have hv : validVars df vars_group ≠ [] := fun h => by simp [h] at hvar
  simp only [metricsD, compute_metrics_ok df vars_group time_col ht h0 hv]
  simp [dgetM, dget_map_pair (fun v => channelStats (dfCol df v) (dfCol df time_col)) _ var hvar]

lemma le_foldl_max : ∀ (l : List ℚ) (a : ℚ), a ≤ l.foldl max a ∧ ∀ x ∈ l, x ≤ l.foldl max a := by
  intro l
  induction l with
  | nil => intro a; exact ⟨le_refl a, by simp⟩
  | cons y l ih =>
    intro a
    refine ⟨le_trans (le_max_left a y) (ih (max a y)).1, ?_⟩
    intro x hx
    rcases List.mem_cons.mp hx with rfl | hx
    · exact le_trans (le_max_right a x) (ih (max a x)).1
    · exact (ih (max a y)).2 x hx

lemma foldl_max_mem : ∀ (l : List ℚ) (a : ℚ), l.foldl max a ∈ a :: l := by
  intro l
  induction l with
  | nil => intro a; simp
  | cons y l ih =>
    intro a
    rw [List.foldl_cons]
    rcases List.mem_cons.mp (ih (max a y)) with h1 | h1
    · rcases max_choice a y with h2 | h2
      · rw [h1, h2]
        exact List.mem_cons_self _ _
      · rw [h1, h2]
        exact List.mem_cons_of_mem _ (List.mem_cons_self _ _)
    · exact List.mem_cons_of_mem _ (List.mem_cons_of_mem _ h1)

lemma le_listMax (l : List ℚ) (x : ℚ) (hx : x ∈ l) : x ≤ listMax l := by
  cases l with
  | nil => cases hx
  | cons a l =>
    rcases List.mem_cons.mp hx with rfl | hx
    · exact (le_foldl_max l x).1
    · exact (le_foldl_max l a).2 x hx

lemma listMax_mem (l : List ℚ) (h : l ≠ []) : listMax l ∈ l := by
  cases l with
  | nil => exact absurd rfl h
  | cons a l => simpa [listMax] using foldl_max_mem l a

lemma argmax_lt_length (l : List ℚ) (h : l ≠ []) : argmax l < l.length :=
  List.findIdx_lt_length_of_exists ⟨listMax l, listMax_mem l h, by simp⟩

lemma getD_argmax (l : List ℚ) (h : l ≠ []) : l.getD (argmax l) 0 = listMax l := by
  have hlt := argmax_lt_length l h
  have hp := @List.findIdx_getElem ℚ (fun x => decide (x = listMax l)) l hlt
  rw [List.getD_eq_getElem l 0 hlt]
  simpa [argmax] using hp

lemma getD_lt_argmax (l : List ℚ) (j : ℕ) (hj : j < argmax l) (hlen : j < l.length) :
    l.getD j 0 < listMax l := by
  have hne : l[j] ≠ listMax l := by
    simpa using @List.not_of_lt_findIdx ℚ (fun x => decide (x = listMax l)) l j hj
  have hle : l[j] ≤ listMax l := le_listMax l _ (List.getElem_mem hlen)
  rw [List.getD_eq_getElem l 0 hlen]
  exact lt_of_le_of_ne hle hne

/-! ### C1: the group summary against the channel routine -/

/-- C1 (amended): the group summary has the statistical shape of the channel
routine minus the `median` (and `time_of_peak`) entries — exactly the keys
`mean`, `max`, `min`, `std_dev`, `range`, `total_energy_kWh`, each produced by
the same formula the per-channel routine applies, evaluated on the per-sample
sum of the valid channels (the composite series), never on sums of the
individual channels' summary values; `median` is absent from the group
summary. -/
theorem groupSummary_is_channelStats_of_composite (df : DataFrame)
    (vars_group : List String) (time_col : String) (ht : time_col ∈ dfColumns df)
    (h0 : dfCol df time_col ≠ []) (hv : validVars df vars_group ≠ []) :
    summaryD df vars_group time_col
      = (channelStats (rowSum df (validVars df vars_group)) (dfCol df time_col)).filter
          (fun p => !(p.1 == "median" || p.1 == "time_of_peak")) ∧
    dget (summaryD df vars_group time_col) "median" = none := by
  have hs := compute_metrics_ok df vars_group time_col ht h0 hv
  constructor
  · simp only [summaryD, hs]
    simp [channelStats]
  · simp only [summaryD, hs]
    simp [dget]

/-- Witness for C1: the three-row two-channel series instantiates the amended
group-summary shape. -/
theorem groupSummary_composite_witness :
    summaryD dfScenario ["Power1", "Power2"] "elapsedTime"
      = (channelStats (rowSum dfScenario (validVars dfScenario ["Power1", "Power2"]))
          (dfCol dfScenario "elapsedTime")).filter
          (fun p => !(p.1 == "median" || p.1 == "time_of_peak")) ∧
    dget (summaryD dfScenario ["Power1", "Power2"] "elapsedTime") "median" = none :=
  groupSummary_is_channelStats_of_composite dfScenario ["Power1", "Power2"] "elapsedTime"
    (by decide) (by decide) (by decide)

/-- Counterexample for C1 as stated: on a concrete series the group summary is
nonempty but carries no `median` key, so it does not have the full
ChannelMetrics shape (mean, median, max, min, std_dev, range, total_energy)
the claim asserts. -/
theorem groupSummary_median_missing :
    dget (summaryD dfScenario ["Power1", "Power2"] "elapsedTime") "median" = none ∧
    summaryD dfScenario ["Power1", "Power2"] "elapsedTime" ≠ [] := by
  constructor <;>
    simp [summaryD, compute_metrics, dfScenario, validVars, dfColumns, dfCol, dget]

/-! ### C7: first occurrence of the maximum -/

/-- C7: for a present, nonempty channel the details dict reports `max` as the
rounded maximum of the channel and `time_of_peak` as the rounded timestamp at
index `argmax`, where `argmax` is the index of the first sample attaining the
maximum: the value there is the maximum and every earlier sample is strictly
below it. -/
theorem time_of_peak_is_first_max (df : DataFrame) (vars_group : List String)
    (time_col var : String) (ht : time_col ∈ dfColumns df) (h0 : dfCol df time_col ≠ [])
    (hvar : var ∈ validVars df vars_group) (hcol : dfCol df var ≠ []) :
    dget (dgetM (metricsD df vars_group time_col) var) "max"
        = some (round2 (listMax (dfCol df var))) ∧
    dget (dgetM (metricsD df vars_group time_col) var) "time_of_peak"
        = some (round2 ((dfCol df time_col).getD (argmax (dfCol df var)) 0)) ∧
    (dfCol df var).getD (argmax (dfCol df var)) 0 = listMax (dfCol df var) ∧
    ∀ j, j < argmax (dfCol df var) → (dfCol df var).getD j 0 < listMax (dfCol df var) := by
  rw [metricsD_entry df vars_group time_col var ht h0 hvar]
  refine ⟨?_, ?_, getD_argmax _ hcol, ?_⟩
  · simp [channelStats, dget]
  · simp [channelStats, dget]
  · intro j hj
    exact getD_lt_argmax _ j hj (lt_trans hj (argmax_lt_length _ hcol))

/-- Witness for C7: the spec's peak-time scenario — values `[10, 50, 50, 20]`
at times `[0, 1, 2, 3]` give `max = 50` and `time_of_peak = 1` (the first of
the two samples attaining 50). -/
theorem time_of_peak_is_first_max_witness :
    dget (dgetM (metricsD dfPeak ["P"] "elapsedTime") "P") "max" = some 50 ∧
    dget (dgetM (metricsD dfPeak ["P"] "elapsedTime") "P") "time_of_peak" = some 1 ∧
    argmax (dfCol dfPeak "P") = 1 := by
  have h := time_of_peak_is_first_max dfPeak ["P"] "elapsedTime" "P"
    (by decide) (by decide) (by decide) (by decide)
  have hcolP : dfCol dfPeak "P" = [10, 50, 50, 20] := by simp [dfPeak, dfCol]
  have hcolT : dfCol dfPeak "elapsedTime" = [0, 1, 2, 3] := by simp [dfPeak, dfCol]
  have hmax : listMax [10, 50, 50, 20] = 50 := by
    norm_num [listMax, List.foldl, max_def]
  have hargmax : argmax (dfCol dfPeak "P") = 1 := by
    rw [argmax, hcolP, hmax]
    norm_num [List.findIdx_cons, Bool.cond_decide]
  refine ⟨?_, ?_, hargmax⟩
  · rw [h.1, hcolP, hmax]
    norm_num [round2, roundHalfEven]
  · rw [h.2.1, hargmax, hcolT]
    norm_num [List.getD_cons_succ, List.getD_cons_zero, round2, roundHalfEven]

/-! ### C4: single-sample and empty channels -/

/-- C4 (amended): a single-sample channel gets `total_energy_kWh = 0` and
`time_of_peak` equal to that sample's timestamp; but a zero-sample (empty)
table does not yield `0`/`null` — `compute_metrics` raises `IndexError` at
`time[-1]` before any channel metric is produced.  The last conjunct
instantiates the single-sample case on a concrete one-row table. -/
theorem single_sample_and_empty :
    (∀ (df : DataFrame) (vars_group : List String) (time_col var : String) (t v : ℚ),
      time_col ∈ dfColumns df → dfCol df time_col = [t] → dfCol df var = [v] →
      var ∈ validVars df vars_group →
      dget (dgetM (metricsD df vars_group time_col) var) "total_energy_kWh" = some 0 ∧
      dget (dgetM (metricsD df vars_group time_col) var) "time_of_peak" = some (round2 t)) ∧
    (∀ (df : DataFrame) (vars_group : List String) (time_col : String),
      time_col ∈ dfColumns df → dfCol df time_col = [] →
      compute_metrics df vars_group time_col = .error .indexError) ∧
    (dget (dgetM (metricsD dfOneRow ["P"] "elapsedTime") "P") "total_energy_kWh" = some 0 ∧
     dget (dgetM (metricsD dfOneRow ["P"] "elapsedTime") "P") "time_of_peak" = some 7) := by
  refine ⟨?_, ?_, ?_⟩
  · intro df vars_group time_col var t v ht htime hvcol hvar
    rw [metricsD_entry df vars_group time_col var ht (by rw [htime]; exact List.cons_ne_nil t []) hvar,
      htime, hvcol]
    constructor
    · simp only [channelStats, dget]
      simp [trapz]
      norm_num [round4, roundHalfEven]
    · simp [channelStats, dget, argmax, listMax, List.findIdx_cons]
  · intro df vars_group time_col ht h
    simp [compute_metrics, ht, h]
  · have e := metricsD_entry dfOneRow ["P"] "elapsedTime" "P" (by decide) (by decide) (by decide)
    have hP : dfCol dfOneRow "P" = [5] := by simp [dfOneRow, dfCol]
    have hT : dfCol dfOneRow "elapsedTime" = [7] := by simp [dfOneRow, dfCol]
    rw [e, hP, hT]
    constructor
    · simp only [channelStats, dget]
      simp [trapz]
      norm_num [round4, roundHalfEven]
    · simp only [channelStats, dget]
      simp [argmax, listMax, List.findIdx_cons]
      norm_num [round2, roundHalfEven]

/-- Counterexample for C4 as stated: on an empty (zero-sample) table the
channel metrics computation does not return `total_energy 0` with a `null`
peak time — it raises `IndexError` (from `time[-1]` on line 25) instead of
returning. -/
theorem empty_table_raises_index_error :
    compute_metrics dfEmpty ["P"] "elapsedTime" = .error .indexError ∧
    "P" ∈ validVars dfEmpty ["P"] := by
  refine ⟨?_, by decide⟩
  simp [compute_metrics, dfEmpty, dfColumns, dfCol]

/-! ### C8: energy additivity over channel sets -/

lemma trapz_map_add (f g : ℕ → ℚ) :
    ∀ (r : List ℕ) (t : List ℚ),
      trapz (r.map (fun i => f i + g i)) t = trapz (r.map f) t + trapz (r.map g) t := by
  intro r
  induction r with
  | nil => intro t; simp [trapz]
  | cons i r ih =>
    intro t
    cases r with
    | nil =>
      cases t with
      | nil => simp [trapz]
      | cons t0 ts => cases ts <;> simp [trapz]
    | cons j r2 =>
      cases t with
      | nil => simp [trapz]
      | cons t0 ts =>
        cases ts with
        | nil => simp [trapz]
        | cons t1 ts2 =>
          have h := ih (t1 :: ts2)
          simp only [List.map_cons] at h ⊢
          simp only [trapz]
          rw [h]
          ring

lemma validVars_append (df : DataFrame) (A B : List String) :
    validVars df (A ++ B) = validVars df A ++ validVars df B :=
  List.filter_append _ _

/-- C8: trapezoidal group energy is additive over channel sets.  First
conjunct: for disjoint channel lists, the unrounded composite-series energy of
the union equals the sum of the two composite energies, exactly.  Second
conjunct: the group summary's `total_energy_kWh` is exactly this composite
energy, rounded to 4 decimals. -/
theorem group_energy_additive :
    (∀ (df : DataFrame) (A B : List String) (time_col : String), A.Disjoint B →
      groupEnergy df (A ++ B) time_col
        = groupEnergy df A time_col + groupEnergy df B time_col) ∧
    (∀ (df : DataFrame) (vars_group : List String) (time_col : String),
      time_col ∈ dfColumns df → dfCol df time_col ≠ [] → validVars df vars_group ≠ [] →
      dget (summaryD df vars_group time_col) "total_energy_kWh"
        = some (round4 (groupEnergy df vars_group time_col))) := by
  constructor
  · intro df A B tc _hd
    have key : trapz (rowSum df (validVars df (A ++ B))) (dfCol df tc)
        = trapz (rowSum df (validVars df A)) (dfCol df tc)
          + trapz (rowSum df (validVars df B)) (dfCol df tc) := by
      rw [validVars_append]
      have e1 : rowSum df (validVars df A ++ validVars df B)
          = (List.range (dfNRows df)).map
              (fun i => (rowVals df (validVars df A) i).sum + (rowVals df (validVars df B) i).sum) := by
        simp [rowSum, rowVals]
      rw [e1, trapz_map_add (fun i => (rowVals df (validVars df A) i).sum)
        (fun i => (rowVals df (validVars df B) i).sum) (List.range (dfNRows df)) (dfCol df tc)]
      rfl
    unfold groupEnergy
    rw [key]
    ring
  · intro df vars_group tc ht h0 hv
    simp only [summaryD, compute_metrics_ok df vars_group tc ht h0 hv]
    simp [dget, groupEnergy]

/-- Witness for C8: the additivity conjunct instantiated on the disjoint
singleton channel sets of the three-row series. -/
theorem group_energy_additive_witness :
    groupEnergy dfScenario (["Power1"] ++ ["Power2"]) "elapsedTime"
      = groupEnergy dfScenario ["Power1"] "elapsedTime"
        + groupEnergy dfScenario ["Power2"] "elapsedTime" :=
  group_energy_additive.1 dfScenario ["Power1"] ["Power2"] "elapsedTime"
    (by intro a ha hb
        simp at ha
        subst ha
        simp at hb)

/-! ### C2: the Top Variables callout -/

/-- C2 bug evidence: on a concrete series with channels present, the live
assembler (src/app.py line 244) hands back an overall summary whose
`Top Variables` mapping is the hardcoded empty dict, while the archived
`find_top_variable` (the behavior the spec describes) selects the channel
with the highest `mean` across all groups. -/
theorem topVariables_hardcoded_empty :
    topVariablesOf (render_overall dfScenario ["Power1"] ["Power2"]) = some [] ∧
    metricsD dfScenario ["Power1"] "elapsedTime" ≠ [] ∧
    find_top_variable
      (allVarsCombined (metricsD dfScenario ["Power1"] "elapsedTime")
        (metricsD dfScenario ["Power2"] "elapsedTime")) "mean"
      = some ⟨"Power1", "Elektrisch", 200⟩ := by
  have hv1 : validVars dfScenario ["Power1"] = ["Power1"] := by decide
  have hv2 : validVars dfScenario ["Power2"] = ["Power2"] := by decide
  have hcT : dfCol dfScenario "elapsedTime" = [0, 10, 20] := by simp [dfScenario, dfCol]
  have hc1 : dfCol dfScenario "Power1" = [100, 200, 300] := by simp [dfScenario, dfCol]
  have hc2 : dfCol dfScenario "Power2" = [50, 50, 50] := by simp [dfScenario, dfCol]
  have hok1 := compute_metrics_ok dfScenario ["Power1"] "elapsedTime"
    (by decide) (by decide) (by decide)
  have hok2 := compute_metrics_ok dfScenario ["Power2"] "elapsedTime"
    (by decide) (by decide) (by decide)
  have hmetE : metricsD dfScenario ["Power1"] "elapsedTime"
      = [("Power1", channelStats [100, 200, 300] [0, 10, 20])] := by
    simp only [metricsD, hok1]
    simp [hv1, hc1, hcT]
  have hmetP : metricsD dfScenario ["Power2"] "elapsedTime"
      = [("Power2", channelStats [50, 50, 50] [0, 10, 20])] := by
    simp only [metricsD, hok2]
    simp [hv2, hc2, hcT]
  have hm1 : round2 (listMean [100, 200, 300]) = 200 := by
    norm_num [listMean, round2, roundHalfEven]
  have hm2 : round2 (listMean [50, 50, 50]) = 50 := by
    norm_num [listMean, round2, roundHalfEven]
  have hm3 : round2 (200 : ℚ) = 200 := by
    norm_num [round2, roundHalfEven]
  refine ⟨?_, ?_, ?_⟩
  · simp [render_overall, topVariablesOf, hok1, hok2, Bind.bind, Except.bind, pure, Except.pure]
  · rw [hmetE]
    simp
  · rw [hmetE, hmetP]
    simp only [allVarsCombined, find_top_variable, pyMaxBy, List.map_cons, List.map_nil,
      List.nil_append, List.cons_append, List.foldl_cons, List.foldl_nil]
    simp only [channelStats, dget]
    norm_num [hm1, hm2]
    simp [dget, hm3]

/-! ### C10: duty cycle of constant groups depends on the channel count -/

lemma getD_replicate_of_lt (m i : ℕ) (c : ℚ) (h : i < m) :
    (List.replicate m c).getD i 0 = c := by
  rw [List.getD_eq_getElem _ _ (by simpa using h), List.getElem_replicate]

lemma listMean_replicate (m : ℕ) (x : ℚ) (hm : m ≠ 0) :
    listMean (List.replicate m x) = x := by
  rw [listMean, List.sum_replicate, List.length_replicate, nsmul_eq_mul]
  exact mul_div_cancel_left₀ x (Nat.cast_ne_zero.mpr hm)

lemma rowVals_const (df : DataFrame) (V : List String) (c : ℚ) (i : ℕ)
    (h : ∀ v ∈ V, (dfCol df v).getD i 0 = c) :
    rowVals df V i = List.replicate V.length c := by
  rw [rowVals, List.map_congr_left h, List.map_const']

lemma filter_replicate_const (p : ℚ → Bool) (m : ℕ) (x : ℚ) :
    (List.replicate m x).filter p = if p x then List.replicate m x else [] := by
  induction m with
  | zero => simp
  | succ m ih =>
    rw [List.replicate_succ, List.filter_cons, ih]
    cases hp : p x <;> simp [hp, List.replicate_succ]

/-- C10: in the assembled pipeline the mean power handed to
`calculate_duty_cycle` is the group summary's mean of the per-sample SUM of
the channels, while the activity test compares the per-sample MEAN against a
tenth of it.  Hence for a group of `n` valid channels that are all the same
positive constant over the whole series (with `n·c` exact under 2-decimal
rounding), the duty cycle is 100 when `n < 10` (that is, `n ≤ 9`) and 0 when
`n ≥ 10`: the classification depends on the channel count alone. -/
theorem pipeline_duty_cycle_channel_count (df : DataFrame) (vars_group : List String)
    (c : ℚ) (n : ℕ)
    (ht : "elapsedTime" ∈ dfColumns df)
    (h0 : dfCol df "elapsedTime" ≠ [])
    (hm : dfNRows df ≠ 0)
    (hcols : ∀ v ∈ validVars df vars_group, dfCol df v = List.replicate (dfNRows df) c)
    (hn : (validVars df vars_group).length = n)
    (hn1 : 1 ≤ n)
    (hc : 0 < c)
    (hround : round2 ((n : ℚ) * c) = (n : ℚ) * c) :
    (dget (summaryD df vars_group "elapsedTime") "mean").getD 0 = (n : ℚ) * c ∧
    app_duty_cycle df vars_group = .ok (some (if n < 10 then 100 else 0)) := by
  have hv : validVars df vars_group ≠ [] := by
    intro h
    rw [h] at hn
    simp at hn
    omega
  have hok := compute_metrics_ok df vars_group "elapsedTime" ht h0 hv
  have hrowsum : rowSum df (validVars df vars_group)
      = List.replicate (dfNRows df) ((n : ℚ) * c) := by
    have e : (List.range (dfNRows df)).map
          (fun i => (rowVals df (validVars df vars_group) i).sum)
        = (List.range (dfNRows df)).map (fun _ => (n : ℚ) * c) :=
      List.map_congr_left (fun i hi => by
        rw [List.mem_range] at hi
        rw [rowVals_const df _ c i (fun v hv2 => by
              rw [hcols v hv2, getD_replicate_of_lt _ _ _ hi]),
          List.sum_replicate, hn, nsmul_eq_mul])
    rw [rowSum, e, List.map_const', List.length_range]
  have hmeanval : round2 (listMean (rowSum df (validVars df vars_group))) = (n : ℚ) * c := by
    rw [hrowsum, listMean_replicate _ _ hm, hround]
  have hsummary : dget (summaryD df vars_group "elapsedTime") "mean"
      = some ((n : ℚ) * c) := by
    simp only [summaryD, hok]
    simp [dget, hmeanval]
  have hrowmean : rowMean df (validVars df vars_group) = List.replicate (dfNRows df) c := by
    have e : (List.range (dfNRows df)).map
          (fun i => listMean (rowVals df (validVars df vars_group) i))
        = (List.range (dfNRows df)).map (fun _ => c) :=
      List.map_congr_left (fun i hi => by
        rw [List.mem_range] at hi
        rw [rowVals_const df _ c i (fun v hv2 => by
              rw [hcols v hv2, getD_replicate_of_lt _ _ _ hi]),
          hn, listMean_replicate _ _ (by omega)])
    rw [rowMean, e, List.map_const', List.length_range]
  have hvars : vars_group ≠ [] := by
    intro h
    exact hv (by rw [h]; rfl)
  have hnq : (0 : ℚ) < (n : ℚ) := by
    exact_mod_cast Nat.pos_of_ne_zero (by omega)
  have hmp : (n : ℚ) * c ≠ 0 := ne_of_gt (mul_pos hnq hc)
  have hdc : calculate_duty_cycle df vars_group ((n : ℚ) * c)
      = some (if n < 10 then 100 else 0) := by
    have hcond : ¬(vars_group = [] ∨ (n : ℚ) * c = 0) := by
      push_neg
      exact ⟨hvars, hmp⟩
    simp only [calculate_duty_cycle, if_neg hcond, if_neg hv, if_neg hm, hrowmean,
      filter_replicate_const]
    by_cases hlt : n < 10
    · have hpred : (1 : ℚ) / 10 * ((n : ℚ) * c) < c := by
        have h10 : (n : ℚ) < 10 := by exact_mod_cast hlt
        nlinarith
      rw [if_pos (decide_eq_true hpred), if_pos hlt, List.length_replicate]
      have e : ((dfNRows df : ℚ)) / (dfNRows df : ℚ) * 100 = 100 := by
        rw [div_self (Nat.cast_ne_zero.mpr hm)]
        norm_num
      rw [e]
      norm_num [round2, roundHalfEven]
    · have hpred : ¬((1 : ℚ) / 10 * ((n : ℚ) * c) < c) := by
        have h10 : (10 : ℚ) ≤ (n : ℚ) := by exact_mod_cast Nat.le_of_not_lt hlt
        nlinarith
      rw [if_neg (by simpa using hpred), if_neg hlt]
      simp
      norm_num [round2, roundHalfEven]
  constructor
  · rw [hsummary]
    rfl
  · simp only [app_duty_cycle, hok, Bind.bind, Except.bind, pure, Except.pure]
    simp [dget, hmeanval, hdc]

/-- Witness for C10: the same constant channels give duty cycle 100 with two
channels but 0 with ten channels. -/
theorem pipeline_duty_cycle_channel_count_witness :
    app_duty_cycle dfConst2 ["a", "b"] = .ok (some 100) ∧
    app_duty_cycle dfConst10 varsConst10 = .ok (some 0) := by
  constructor
  · have h := pipeline_duty_cycle_channel_count dfConst2 ["a", "b"] 5 2
      (by decide) (by decide) (by decide) (by decide) (by decide) (by decide) (by decide)
      (by norm_num [round2, roundHalfEven])
    simpa using h.2
  · have h := pipeline_duty_cycle_channel_count dfConst10 varsConst10 5 10
      (by decide) (by decide) (by decide) (by decide) (by decide) (by decide) (by decide)
      (by norm_num [round2, roundHalfEven])
    simpa using h.2
